import Mathlib

/-
Shallow embedding of the `ray_tracer` tuple library (src/src/tuples.py and
src/src/utils/math_utils.py).

Numeric model: Python floats are modelled as exact rationals (ℚ) for the
algebraic and classification operations; the square root needed by
`magnitude`/`normalize` lives in ℝ.  A second, smaller model `FP` extends the
rationals with the IEEE-754 special values (infinities and NaN) and is used
for the claims whose content is specifically about those special values:
the behaviour of the tolerance comparator on NaN, and what Python float
division does on a zero divisor (CPython raises ZeroDivisionError for
`x / 0.0`, for every float `x`, rather than producing an infinity or NaN).
-/

/-- Errors raised by the Python code: `ValueError` (which the spec calls
DomainError) from the explicit guard clauses, and `ZeroDivisionError`
raised by the Python runtime on float division by zero. -/
inductive Err where
  | domain : String → Err
  | zeroDivision : String → Err
  deriving DecidableEq, Repr

/-- `EPSILON = 1e-6` from src/src/utils/math_utils.py. -/
def EPSILON : ℚ := 1e-6

/-- `equal(a, b, eps=EPSILON)` from math_utils.py: `abs(a - b) < eps`. -/
def equal (a b : ℚ) (eps : ℚ := EPSILON) : Bool :=
  decide (|a - b| < eps)

/-- The 4-component tuple of tuples.py (fields x, y, z, w). -/
structure Tup where
  x : ℚ
  y : ℚ
  z : ℚ
  w : ℚ
  deriving DecidableEq, Repr

/-- Property `is_point`: `equal(self.w, 1.0)`. -/
def Tup.is_point (t : Tup) : Bool := equal t.w 1

/-- Property `is_vector`: `equal(self.w, 0.0)`. -/
def Tup.is_vector (t : Tup) : Bool := equal t.w 0

/-- In the Python class, `red` is a `@property` defined on `Tuple` itself, so
`hasattr(self, "red")` evaluates to True for every instance of the class.
This definition records that fact. -/
def Tup.hasattr_red (_ : Tup) : Bool := true

/-- Property `is_color`: `self.w == 0.0 and hasattr(self, "red")`.  The `==`
here is exact float equality, not the tolerance comparator. -/
def Tup.is_color (t : Tup) : Bool := decide (t.w = 0) && t.hasattr_red

/-- Channel alias `red = x`. -/
def Tup.red (t : Tup) : ℚ := t.x

/-- Channel alias `green = y`. -/
def Tup.green (t : Tup) : ℚ := t.y

/-- Channel alias `blue = z`. -/
def Tup.blue (t : Tup) : ℚ := t.z

/-- Factory `point(x, y, z) = Tuple(x, y, z, 1.0)`. -/
def Tup.point (x y z : ℚ) : Tup := ⟨x, y, z, 1⟩

/-- Factory `vector(x, y, z) = Tuple(x, y, z, 0.0)`. -/
def Tup.vector (x y z : ℚ) : Tup := ⟨x, y, z, 0⟩

/-- Factory `color(red, green, blue) = Tuple(red, green, blue, 0.0)`. -/
def Tup.color (red green blue : ℚ) : Tup := ⟨red, green, blue, 0⟩

/-- `__neg__`: negate every component. -/
def Tup.neg (t : Tup) : Tup := ⟨-t.x, -t.y, -t.z, -t.w⟩

/-- `__mul__(scalar)`: multiply every component by the scalar. -/
def Tup.mul (t : Tup) (scalar : ℚ) : Tup :=
  ⟨t.x * scalar, t.y * scalar, t.z * scalar, t.w * scalar⟩

/-- `__truediv__(scalar)`: divide every component by the scalar.  CPython
float division raises ZeroDivisionError when the divisor equals zero
(positive or negative zero), before any quotient is produced; for a nonzero
divisor the quotient is exact in this rational abstraction. -/
def Tup.truediv (t : Tup) (scalar : ℚ) : Except Err Tup :=
  if scalar = 0 then .error (Err.zeroDivision "float division by zero")
  else .ok ⟨t.x / scalar, t.y / scalar, t.z / scalar, t.w / scalar⟩

/-- `__eq__`: all four components equal within the shared tolerance. -/
def Tup.eq (a b : Tup) : Bool :=
  equal a.x b.x && equal a.y b.y && equal a.z b.z && equal a.w b.w

/-- `magnitude()`: `sqrt(x**2 + y**2 + z**2 + w**2)` over all four
components. -/
noncomputable def Tup.magnitude (t : Tup) : ℝ :=
  Real.sqrt ((t.x : ℝ) ^ 2 + (t.y : ℝ) ^ 2 + (t.z : ℝ) ^ 2 + (t.w : ℝ) ^ 2)

/-- Real-valued form of the tolerance comparator, for comparisons that
involve the (irrational-valued) magnitude; same shared epsilon. -/
def equalR (a b : ℝ) (eps : ℝ := (EPSILON : ℝ)) : Prop := |a - b| < eps

open Classical in
/-- `normalize()`: guard `is_vector`, guard `equal(mag, 0.0)`, then return
`Tuple(x/mag, y/mag, z/mag, 0.0)`.  The result components are real numbers
because the magnitude is a square root. -/
noncomputable def Tup.normalize (t : Tup) : Except Err (ℝ × ℝ × ℝ × ℝ) :=
  if ¬ t.is_vector then .error (Err.domain "Normalize is only defined for vectors.")
  else if equalR t.magnitude 0 then .error (Err.domain "A zero vector cannot be normalized.")
  else .ok ((t.x : ℝ) / t.magnitude, (t.y : ℝ) / t.magnitude, (t.z : ℝ) / t.magnitude, 0)

/-- `dot(other)`: guard `self.is_vector` only (the other operand is never
validated), then sum the four componentwise products. -/
def Tup.dot (a b : Tup) : Except Err ℚ :=
  if ¬ a.is_vector then .error (Err.domain "Dot product cannot be performed on points.")
  else .ok (a.x * b.x + a.y * b.y + a.z * b.z + a.w * b.w)

/-- `cross(other)`: guard that both operands are vectors, then return the
standard 3D cross product with `w = 0.0`. -/
def Tup.cross (a b : Tup) : Except Err Tup :=
  if ¬ (a.is_vector && b.is_vector) then .error (Err.domain "Cross product is only defined for vectors.")
  else .ok ⟨a.y * b.z - a.z * b.y, a.z * b.x - a.x * b.z, a.x * b.y - a.y * b.x, 0⟩

/-- Python 3 `round` on a float: round half to even (banker rounding),
modelled exactly on ℚ.  The tie test uses `% 2` exactly as CPython does. -/
def pyRound (q : ℚ) : ℤ :=
  if q - ⌊q⌋ < 1/2 then ⌊q⌋
  else if 1/2 < q - ⌊q⌋ then ⌊q⌋ + 1
  else if ⌊q⌋ % 2 = 0 then ⌊q⌋ else ⌊q⌋ + 1

/-- `to_rgb(c)`: per channel `int(max(0, min(255, round(c.x * 255))))` —
round to nearest first, then clamp to [0, 255]. -/
def to_rgb (c : Tup) : ℤ × ℤ × ℤ :=
  (max 0 (min 255 (pyRound (c.x * 255))),
   max 0 (min 255 (pyRound (c.y * 255))),
   max 0 (min 255 (pyRound (c.z * 255))))

/-- Python float values for the claims that are specifically about IEEE-754
special values: a finite value (exact rational abstraction), the two
infinities, and NaN. -/
inductive FP where
  | fin : ℚ → FP
  | inf : FP
  | ninf : FP
  | nan : FP
  deriving DecidableEq, Repr

/-- IEEE-754 subtraction on the special values; exact on finite values. -/
def FP.sub : FP → FP → FP
  | nan, _ => nan
  | _, nan => nan
  | inf, inf => nan
  | inf, _ => inf
  | ninf, ninf => nan
  | ninf, _ => ninf
  | fin _, inf => ninf
  | fin _, ninf => inf
  | fin a, fin b => fin (a - b)

/-- IEEE-754 absolute value. -/
def FP.abs : FP → FP
  | fin a => fin |a|
  | inf => inf
  | ninf => inf
  | nan => nan

/-- IEEE-754 strict less-than as Python evaluates it: any comparison with
NaN is False. -/
def FP.lt : FP → FP → Bool
  | nan, _ => false
  | _, nan => false
  | inf, _ => false
  | ninf, ninf => false
  | ninf, _ => true
  | fin _, inf => true
  | fin _, ninf => false
  | fin a, fin b => decide (a < b)

/-- `equal(a, b, eps=EPSILON)` from math_utils.py evaluated under full
Python float semantics: `abs(a - b) < eps`. -/
def FP.equal (a b : FP) (eps : FP := FP.fin EPSILON) : Bool :=
  FP.lt (FP.abs (FP.sub a b)) eps

/-- The shared epsilon constant written as a plain fraction. -/
lemma EPSILON_eq : EPSILON = 1 / 1000000 := by norm_num [EPSILON]

/-- C9: for all x, y, z, `point(x, y, z)` has `w` exactly 1.0, satisfies
`is_point` and not `is_vector`; `vector(x, y, z)` and `color(x, y, z)` have
`w` exactly 0.0, satisfy `is_vector` and not `is_point`. -/
theorem factories_classification :
    ∀ x y z : ℚ,
      ((Tup.point x y z).w = 1 ∧ (Tup.point x y z).is_point = true
        ∧ (Tup.point x y z).is_vector = false)
      ∧ ((Tup.vector x y z).w = 0 ∧ (Tup.vector x y z).is_vector = true
        ∧ (Tup.vector x y z).is_point = false)
      ∧ ((Tup.color x y z).w = 0 ∧ (Tup.color x y z).is_vector = true
        ∧ (Tup.color x y z).is_point = false) := by
  intro x y z
  refine ⟨⟨rfl, ?_, ?_⟩, ⟨rfl, ?_, ?_⟩, ⟨rfl, ?_, ?_⟩⟩ <;>
    norm_num [Tup.point, Tup.vector, Tup.color, Tup.is_point, Tup.is_vector,
      equal, EPSILON_eq, abs_lt]

/-- C10: `is_color` holds exactly for tuples whose `w` is bit-exactly 0.0
(every factory-made vector qualifies), a tuple with `w = 1e-9` is a vector
but not a color, and the `hasattr` conjunct is true for every tuple. -/
theorem is_color_exact :
    (∀ t : Tup, t.is_color = true ↔ t.w = 0)
    ∧ (∀ x y z : ℚ, (Tup.vector x y z).is_color = true)
    ∧ ((Tup.mk 0 0 0 (1/1000000000)).is_vector = true
       ∧ (Tup.mk 0 0 0 (1/1000000000)).is_color = false)
    ∧ (∀ t : Tup, t.hasattr_red = true) := by
  refine ⟨?_, ?_, ⟨?_, ?_⟩, fun t => rfl⟩
  · intro t; simp [Tup.is_color, Tup.hasattr_red]
  · intro x y z; simp [Tup.is_color, Tup.hasattr_red, Tup.vector]
  · norm_num [Tup.is_vector, equal, EPSILON_eq, abs_lt]
  · norm_num [Tup.is_color, Tup.hasattr_red]

/-- Witness for C10 at a concrete input: a tuple with `w` exactly 0 is a
color. -/
theorem is_color_exact_witness : (Tup.mk 5 6 7 0).is_color = true :=
  (is_color_exact.1 (Tup.mk 5 6 7 0)).mpr rfl

/-- C4: `equal(a, b)` is true iff `|a - b| < EPSILON` (strict, default
epsilon 1e-6), both in the rational model and on finite floats; under full
float semantics a NaN on either side always yields false. -/
theorem equal_tolerance_spec :
    EPSILON = 1 / 1000000
    ∧ (∀ a b : ℚ, equal a b = true ↔ |a - b| < EPSILON)
    ∧ (∀ a b : ℚ, FP.equal (FP.fin a) (FP.fin b) = true ↔ |a - b| < EPSILON)
    ∧ (∀ b : FP, FP.equal FP.nan b = false)
    ∧ (∀ a : FP, FP.equal a FP.nan = false) := by
  refine ⟨EPSILON_eq, ?_, ?_, ?_, ?_⟩
  · intro a b; simp [equal]
  · intro a b; simp [FP.equal, FP.sub, FP.abs, FP.lt]
  · intro b; cases b <;> rfl
  · intro a; cases a <;> rfl

/-- Witness for C4 at a concrete input: two equal finite floats compare
equal under the tolerance comparator. -/
theorem equal_tolerance_spec_witness : FP.equal (FP.fin 1) (FP.fin 1) = true :=
  (equal_tolerance_spec.2.2.1 1 1).mpr (by norm_num [EPSILON_eq])

/-- Rounding half to even never strays more than 1/2 from the input, i.e.
`pyRound` rounds to a nearest integer. -/
lemma pyRound_nearest (q : ℚ) : |(pyRound q : ℚ) - q| ≤ 1/2 := by
  have h0 : (⌊q⌋ : ℚ) ≤ q := Int.floor_le q
  have h1 : q < ⌊q⌋ + 1 := Int.lt_floor_add_one q
  unfold pyRound
  by_cases hlt : q - ⌊q⌋ < 1/2
  · rw [if_pos hlt, abs_le]
    constructor <;> linarith
  · rw [if_neg hlt]
    push_neg at hlt
    by_cases hgt : 1/2 < q - ⌊q⌋
    · rw [if_pos hgt, abs_le]
      constructor <;> push_cast <;> linarith
    · rw [if_neg hgt]
      push_neg at hgt
      by_cases hev : ⌊q⌋ % 2 = 0
      · rw [if_pos hev, abs_le]
        constructor <;> linarith
      · rw [if_neg hev, abs_le]
        constructor <;> push_cast <;> linarith

/-- C8: `to_rgb` multiplies each of the three channels by 255, rounds to a
nearest integer, then clamps the rounded value to [0, 255]; in particular
`to_rgb(color(-0.5, 0, 1.5)) = (0, 0, 255)`. -/
theorem to_rgb_spec :
    (∀ c : Tup, to_rgb c =
      (max 0 (min 255 (pyRound (c.x * 255))),
       max 0 (min 255 (pyRound (c.y * 255))),
       max 0 (min 255 (pyRound (c.z * 255)))))
    ∧ (∀ q : ℚ, |(pyRound q : ℚ) - q| ≤ 1/2)
    ∧ to_rgb (Tup.color (-(1/2)) 0 (3/2)) = (0, 0, 255) := by
  refine ⟨fun c => rfl, pyRound_nearest, by norm_num [to_rgb, pyRound, Tup.color]⟩

/-- C1 counterexample. -/
theorem truediv_zero_raises :
    Tup.truediv (Tup.point 1 2 3) 0 = Except.error (Err.zeroDivision "float division by zero") := rfl

/-- C1 amended. -/
theorem truediv_spec (a : Tup) (s : ℚ) :
    (s ≠ 0 → Tup.truediv a s = Except.ok ⟨a.x / s, a.y / s, a.z / s, a.w / s⟩)
    ∧ (s = 0 → Tup.truediv a s = Except.error (Err.zeroDivision "float division by zero")) := by
  constructor
  · intro h; simp [Tup.truediv, h]
  · intro h; simp [Tup.truediv, h]

/-- C1 witness. -/
theorem truediv_spec_witness :
    Tup.truediv (Tup.point 8 (-6) 4) 2 = Except.ok ⟨4, -3, 2, 1/2⟩ := by
  have h := (truediv_spec (Tup.point 8 (-6) 4) 2).1 (by norm_num)
  rw [h]
  norm_num [Tup.point]

/-- C3. -/
theorem dot_spec (a b : Tup) :
    ((∃ msg, a.dot b = Except.error (Err.domain msg)) ↔ a.is_vector = false)
    ∧ (a.is_vector = true → a.dot b = Except.ok (a.x * b.x + a.y * b.y + a.z * b.z + a.w * b.w)) := by
  by_cases hv : a.is_vector = true
  · constructor
    · simp [Tup.dot, hv]
    · intro _; simp [Tup.dot, hv]
  · have hv' : a.is_vector = false := by simpa using hv
    constructor
    · simp [Tup.dot, hv']
    · intro h; rw [hv'] at h; exact Bool.noConfusion h

/-- C3 witness. -/
theorem dot_spec_witness :
    Tup.dot (Tup.vector 1 2 3) (Tup.point 2 3 4) = Except.ok 20 := by
  have h := (dot_spec (Tup.vector 1 2 3) (Tup.point 2 3 4)).2
    (by norm_num [Tup.is_vector, Tup.vector, equal, EPSILON_eq, abs_lt])
  rw [h]
  norm_num [Tup.vector, Tup.point]

/-- C5. -/
theorem cross_spec (a b : Tup) :
    ((∃ msg, a.cross b = Except.error (Err.domain msg))
        ↔ ¬ (a.is_vector = true ∧ b.is_vector = true))
    ∧ (a.is_vector = true → b.is_vector = true →
        a.cross b = Except.ok ⟨a.y * b.z - a.z * b.y, a.z * b.x - a.x * b.z,
                               a.x * b.y - a.y * b.x, 0⟩) := by
  by_cases hv : a.is_vector = true ∧ b.is_vector = true
  · obtain ⟨ha, hb⟩ := hv
    constructor
    · simp [Tup.cross, ha, hb]
    · intro _ _; simp [Tup.cross, ha, hb]
  · have hcond : ¬ ((a.is_vector && b.is_vector) = true) := by
      rw [Bool.and_eq_true]; exact hv
    constructor
    · unfold Tup.cross
      rw [if_pos hcond]
      simp [hv]
    · intro ha hb; exact absurd ⟨ha, hb⟩ hv

/-- C5 witness. -/
theorem cross_spec_witness :
    Tup.cross (Tup.vector 1 0 0) (Tup.vector 0 1 0) = Except.ok (Tup.vector 0 0 1) := by
  have h := (cross_spec (Tup.vector 1 0 0) (Tup.vector 0 1 0)).2
    (by norm_num [Tup.is_vector, Tup.vector, equal, EPSILON_eq, abs_lt])
    (by norm_num [Tup.is_vector, Tup.vector, equal, EPSILON_eq, abs_lt])
  rw [h]
  norm_num [Tup.vector]

/-- C6. -/
theorem cross_antisymmetry (a b : Tup) (ha : a.is_vector = true) (hb : b.is_vector = true) :
    ∃ c d, a.cross b = Except.ok c ∧ b.cross a = Except.ok d ∧ Tup.eq c d.neg = true := by
  refine ⟨⟨a.y * b.z - a.z * b.y, a.z * b.x - a.x * b.z, a.x * b.y - a.y * b.x, 0⟩,
          ⟨b.y * a.z - b.z * a.y, b.z * a.x - b.x * a.z, b.x * a.y - b.y * a.x, 0⟩,
          ?_, ?_, ?_⟩
  · simp [Tup.cross, ha, hb]
  · simp [Tup.cross, ha, hb]
  · simp only [Tup.eq, Tup.neg, equal, Bool.and_eq_true, decide_eq_true_eq]
    ring_nf
    norm_num [EPSILON_eq]

/-- C6 witness. -/
theorem cross_antisymmetry_witness :
    ∃ c d, Tup.cross (Tup.vector 1 2 3) (Tup.vector 2 3 4) = Except.ok c
      ∧ Tup.cross (Tup.vector 2 3 4) (Tup.vector 1 2 3) = Except.ok d
      ∧ Tup.eq c d.neg = true :=
  cross_antisymmetry (Tup.vector 1 2 3) (Tup.vector 2 3 4)
    (by norm_num [Tup.is_vector, Tup.vector, equal, EPSILON_eq, abs_lt])
    (by norm_num [Tup.is_vector, Tup.vector, equal, EPSILON_eq, abs_lt])

/-- C7. -/
theorem mul_div_roundtrip (a : Tup) (s : ℚ) (hs : s ≠ 0) :
    ∃ r, Tup.truediv (Tup.mul a s) s = Except.ok r ∧ Tup.eq r a = true := by
  refine ⟨⟨a.x * s / s, a.y * s / s, a.z * s / s, a.w * s / s⟩, ?_, ?_⟩
  · simp [Tup.truediv, Tup.mul, hs]
  · have hc : ∀ t : ℚ, t * s / s = t := fun t => mul_div_cancel_right₀ t hs
    simp only [Tup.eq, equal, Bool.and_eq_true, decide_eq_true_eq, hc]
    norm_num [EPSILON_eq]

/-- C7 witness. -/
theorem mul_div_roundtrip_witness :
    ∃ r, Tup.truediv (Tup.mul (Tup.point 1 2 9) (327/100)) (327/100) = Except.ok r
      ∧ Tup.eq r (Tup.point 1 2 9) = true :=
  mul_div_roundtrip (Tup.point 1 2 9) (327/100) (by norm_num)

/-- C2. -/
theorem normalize_spec (v : Tup) :
    ((∃ msg, v.normalize = Except.error (Err.domain msg))
        ↔ (v.is_vector = false ∨ equalR v.magnitude 0))
    ∧ (v.is_vector = true → ¬ equalR v.magnitude 0 →
        v.normalize = Except.ok ((v.x : ℝ) / v.magnitude, (v.y : ℝ) / v.magnitude,
                                 (v.z : ℝ) / v.magnitude, 0)) := by
  by_cases hv : v.is_vector = true
  · by_cases hm : equalR v.magnitude 0
    · constructor
      · unfold Tup.normalize
        rw [if_neg (by simp [hv]), if_pos hm]
        simp [hv, hm]
      · intro _ hm'
        exact absurd hm hm'
    · constructor
      · unfold Tup.normalize
        rw [if_neg (by simp [hv]), if_neg hm]
        simp [hv, hm]
      · intro _ _
        unfold Tup.normalize
        rw [if_neg (by simp [hv]), if_neg hm]
  · have hv' : v.is_vector = false := by simpa using hv
    constructor
    · unfold Tup.normalize
      rw [if_pos (by simp [hv'])]
      simp [hv']
    · intro h
      rw [hv'] at h
      exact Bool.noConfusion h

/-- C2 witness. -/
theorem normalize_spec_witness :
    Tup.normalize (Tup.vector 0 3 4) = Except.ok (0, 3/5, 4/5, 0) := by
  have hmag : (Tup.vector 0 3 4).magnitude = 5 := by
    unfold Tup.magnitude
    norm_num [Tup.vector]
    rw [show (25 : ℝ) = 5 ^ 2 by norm_num]
    exact Real.sqrt_sq (by norm_num)
  have h := (normalize_spec (Tup.vector 0 3 4)).2
    (by norm_num [Tup.is_vector, Tup.vector, equal, EPSILON_eq, abs_lt])
    (by rw [hmag]; unfold equalR; norm_num [EPSILON_eq, abs_lt])
  rw [h, hmag]
  norm_num [Tup.vector]
